import Mathlib

/-!
Verification of the MCPTest repository (a small MCP server forwarding text
tools to the Gemini HTTP API).  The repository contains three server
variants:

* `src/server.js`, first half (the fully commented variant): a retrying
  `callGeminiAPI` wrapper with a rate limiter, and a tool dispatch whose
  per-tool handlers catch provider failures and answer with plain text.
* `src/server.js`, second half (the simplified variant): a non-retrying
  `callGeminiAPI` that substitutes a default string when the response shape
  is unexpected, and a dispatch whose outer catch re-throws `McpError`s.
* `src/unnamed/part_002`: a non-retrying `callGeminiAPI` with a partial
  success-path guard, and a dispatch whose outer catch wraps every error.

The definitions below are a shallow embedding of those functions; theorems
settle the frozen claims about them.
-/

namespace MCPTest

/-! ## JavaScript string `includes` (substring containment)

`src/server.js` classifies errors with `error.message.includes('503')` etc.
We model `String.prototype.includes` over the character lists of Lean
strings. -/

/-- `hasPrefixCL n l` is true when the character list `n` is an initial
segment of `l` (models matching a substring occurrence at the head). -/
def hasPrefixCL : List Char → List Char → Bool
  | [], _ => true
  | _ :: _, [] => false
  | a :: as, b :: bs => a == b && hasPrefixCL as bs

/-- `hasSubstrCL n l` is true when `n` occurs contiguously somewhere in `l`
(models JS `String.prototype.includes`). -/
def hasSubstrCL (needle : List Char) : List Char → Bool
  | [] => needle.isEmpty
  | c :: cs => hasPrefixCL needle (c :: cs) || hasSubstrCL needle cs

/-- JS `hay.includes(needle)`. -/
def jsIncludes (hay needle : String) : Bool :=
  hasSubstrCL needle.toList hay.toList

theorem hasPrefixCL_append (n l m : List Char) (h : hasPrefixCL n l = true) :
    hasPrefixCL n (l ++ m) = true := by
  induction n generalizing l with
  | nil => rfl
  | cons a as ih =>
    cases l with
    | nil => simp [hasPrefixCL] at h
    | cons b bs =>
      simp only [hasPrefixCL, Bool.and_eq_true] at h ⊢
      exact ⟨h.1, ih bs h.2⟩

theorem hasSubstrCL_append_left (n l m : List Char) (h : hasSubstrCL n l = true) :
    hasSubstrCL n (l ++ m) = true := by
  induction l with
  | nil =>
    simp only [hasSubstrCL, List.isEmpty_iff] at h
    subst h
    cases m with
    | nil => rfl
    | cons c cs => simp [hasSubstrCL, hasPrefixCL]
  | cons c cs ih =>
    simp only [hasSubstrCL, Bool.or_eq_true] at h ⊢
    rcases h with h | h
    · exact Or.inl (hasPrefixCL_append n (c :: cs) m h)
    · exact Or.inr (ih h)

theorem toList_append (s t : String) : (s ++ t).toList = s.toList ++ t.toList := by
  cases s; cases t; rfl

/-- An occurrence of `needle` inside a prefix survives appending a suffix. -/
theorem jsIncludes_append_left (s t n : String) (h : jsIncludes s n = true) :
    jsIncludes (s ++ t) n = true := by
  unfold jsIncludes at h ⊢
  rw [toList_append]
  exact hasSubstrCL_append_left _ _ _ h

/-! ## Gemini response data model

The parsed JSON body of a 2xx Gemini response, restricted to the fields the
code reads: `candidates[0].content.parts[0].text`.  `none` models a missing
(`undefined`/absent) field. -/

structure GPart where
  text : Option String
deriving DecidableEq

structure GContent where
  parts : Option (List GPart)
deriving DecidableEq

structure GCandidate where
  content : Option GContent
deriving DecidableEq

structure GeminiData where
  candidates : Option (List GCandidate)
deriving DecidableEq

/-- The well-formed Variant-A success shape
`\x7bcandidates:[\x7bcontent:\x7bparts:[\x7btext:X\x7d]\x7d\x7d]\x7d`. -/
def wellFormed (X : String) : GeminiData :=
  ⟨some [⟨some ⟨some [⟨some X⟩]⟩⟩]⟩

/-- Success-path extraction of the retrying variant (`src/server.js` line 184):
the guard checks `candidates && candidates[0] && candidates[0].content &&
candidates[0].content.parts && candidates[0].content.parts[0]` and then
returns `.text`.  `some v` models a normal JS return of `v` (where `v = none`
is the value `undefined`); `none` models the
`throw new Error('Unexpected response format ...')` branch. -/
def extractMain (d : GeminiData) : Option (Option String) :=
  match d.candidates with
  | none => none
  | some cs =>
    match cs.get? 0 with
    | none => none
    | some c =>
      match c.content with
      | none => none
      | some content =>
        match content.parts with
        | none => none
        | some ps =>
          match ps.get? 0 with
          | none => none
          | some p => some p.text

/-- Outcome of the `part_002` success-path extraction. -/
inductive ExtractOutcome
  | ret (v : Option String)
  | formatThrow
  | typeThrow
deriving DecidableEq

/-- Success-path extraction of `src/unnamed/part_002` (lines 77-82): the guard
checks only `data.candidates && data.candidates[0] && data.candidates[0].content`
before evaluating `data.candidates[0].content.parts[0].text`.
`formatThrow` is the `'Unexpected response format from Gemini API'` branch;
`typeThrow` is the JS `TypeError` raised by indexing `parts[0]` when `parts`
is `undefined`, or by reading `.text` of `undefined` when `parts` is empty. -/
def extractPt2 (d : GeminiData) : ExtractOutcome :=
  match d.candidates with
  | none => .formatThrow
  | some cs =>
    match cs.get? 0 with
    | none => .formatThrow
    | some c =>
      match c.content with
      | none => .formatThrow
      | some content =>
        match content.parts with
        | none => .typeThrow
        | some ps =>
          match ps.get? 0 with
          | none => .typeThrow
          | some p => .ret p.text

/-- Success-path extraction of the simplified second variant of
`src/server.js` (line 567):
`data.candidates?.[0]?.content?.parts?.[0]?.text || '无法获取响应'`.
Optional chaining yields `undefined` (here `none`) when any link is missing,
and `||` replaces every falsy value (`undefined` or the empty string) by the
substitute text. -/
def extractSimple (d : GeminiData) : String :=
  let t : Option String :=
    match d.candidates with
    | none => none
    | some cs =>
      match cs.get? 0 with
      | none => none
      | some c =>
        match c.content with
        | none => none
        | some content =>
          match content.parts with
          | none => none
          | some ps =>
            match ps.get? 0 with
            | none => none
            | some p => p.text
  match t with
  | none => "无法获取响应"
  | some s => if s = "" then "无法获取响应" else s

/-! ## HTTP layer and the retrying wrapper (`src/server.js` lines 129-210)

The network is an oracle `env : Nat → FetchOutcome` giving the outcome of
the `fetch` on each attempt number (attempts are numbered from 1 as in the
source).  The wrapper is pure: delays are recorded in a trace rather than
slept. -/

structure HttpResponse where
  ok : Bool
  status : Nat
  statusText : String
  /-- The `await response.text()` body, interpolated into the error message. -/
  bodyText : String
  /-- The parsed JSON body (`await response.json()`), read on the 2xx path. -/
  data : GeminiData
  /-- `JSON.stringify(data)`, interpolated into the format-error message. -/
  dataStr : String
deriving DecidableEq

inductive FetchOutcome
  | response (r : HttpResponse)
  /-- `fetch` itself rejects, e.g. with an `ECONNRESET`/`ETIMEDOUT` message. -/
  | netError (msg : String)
deriving DecidableEq

/-- A 2xx response carrying parsed body `d` with serialization `ds`. -/
def okResponse (d : GeminiData) (ds : String) : HttpResponse :=
  ⟨true, 200, "OK", "", d, ds⟩

/-- A non-2xx response with the given status, status text and body text.
(The parsed-JSON fields are irrelevant on this path: `response.json()` is
never called when `!response.ok`.) -/
def failResponse (status : Nat) (st bt : String) : HttpResponse :=
  ⟨false, status, st, bt, ⟨none⟩, ""⟩

/-- The error message built at `src/server.js` line 163:
`Gemini API error: $\x7bstatus\x7d $\x7bstatusText\x7d` followed by
`' - ' + errorText` when the body text is non-empty (JS truthiness of the
string). -/
def httpErrorMsg (r : HttpResponse) : String :=
  "Gemini API error: " ++ toString r.status ++ " " ++ r.statusText ++
    (if r.bodyText = "" then "" else " - " ++ r.bodyText)

/-- The message of the format error thrown at `src/server.js` line 187. -/
def formatErrorMsg (dataStr : String) : String :=
  "Unexpected response format from Gemini API: " ++ dataStr

/-- The retry classification at `src/server.js` line 193: an error is
retryable iff its message contains `'503'`, `'429'`, `'ECONNRESET'` or
`'ETIMEDOUT'` as a substring. -/
def retryableMsg (msg : String) : Bool :=
  jsIncludes msg "503" || jsIncludes msg "429" ||
    jsIncludes msg "ECONNRESET" || jsIncludes msg "ETIMEDOUT"

/-- The result of one `callGeminiAPI` invocation: a resolved value (`ret`,
with `none` for the JS value `undefined`) or a rejection with the message of
the thrown error. -/
inductive JsResult
  | ret (v : Option String)
  | err (msg : String)
deriving DecidableEq

/-- Observable trace of one `callGeminiAPI` invocation: how many `fetch`
calls ran, how many rate-limiter admissions (`checkRateLimit` calls) ran,
the backoff delays awaited (in ms, in order), and the final result. -/
structure CallTrace where
  fetches : Nat
  admits : Nat
  delays : List Nat
  result : JsResult
deriving DecidableEq

/-- The `catch` block of the attempt loop (`src/server.js` lines 189-205),
entered with a thrown error whose message is `msg` after an attempt whose
fetch already ran (hence `fetches + 1`).  Non-retryable messages are
re-thrown immediately; retryable ones wait `2^(attempt-1) * 1000` ms and
continue (`rest`) when attempts remain, and otherwise let the loop end so
that line 209 throws `lastError = msg`. -/
def catchStep (maxRetries attempt : Nat) (msg : String) (rest : CallTrace) : CallTrace :=
  if retryableMsg msg then
    if attempt < maxRetries then
      ⟨rest.fetches + 1, rest.admits, (2 ^ (attempt - 1) * 1000) :: rest.delays, rest.result⟩
    else ⟨1, 0, [], .err msg⟩
  else ⟨1, 0, [], .err msg⟩

/-- The in-`try` retry path for a 503/429 status when attempts remain
(`src/server.js` lines 170-175): wait `2^(attempt-1) * 1000` ms and
`continue`. -/
def retryCont (attempt : Nat) (rest : CallTrace) : CallTrace :=
  ⟨rest.fetches + 1, rest.admits, (2 ^ (attempt - 1) * 1000) :: rest.delays, rest.result⟩

/-- The attempt loop of the retrying `callGeminiAPI` (`src/server.js` lines
136-209).  `fuel` is the number of remaining loop iterations
(`maxRetries - attempt + 1` at every reachable call); the base case models
the loop exiting and line 209 throwing `lastError` (which is only reachable
with `retries = 0`, where `lastError` is still `undefined`, modelled `""`). -/
def geminiGo (env : Nat → FetchOutcome) (maxRetries : Nat) :
    Nat → Nat → String → CallTrace
  | 0, _, lastError => ⟨0, 0, [], .err lastError⟩
  | fuel + 1, attempt, _ =>
    match env attempt with
    | .netError m =>
      catchStep maxRetries attempt m (geminiGo env maxRetries fuel (attempt + 1) m)
    | .response r =>
      if r.ok then
        match extractMain r.data with
        | some v => ⟨1, 0, [], .ret v⟩
        | none =>
          catchStep maxRetries attempt (formatErrorMsg r.dataStr)
            (geminiGo env maxRetries fuel (attempt + 1) (formatErrorMsg r.dataStr))
      else
        if r.status == 503 || r.status == 429 then
          if attempt < maxRetries then
            retryCont attempt (geminiGo env maxRetries fuel (attempt + 1) (httpErrorMsg r))
          else
            catchStep maxRetries attempt (httpErrorMsg r)
              (geminiGo env maxRetries fuel (attempt + 1) (httpErrorMsg r))
        else
          catchStep maxRetries attempt (httpErrorMsg r)
            (geminiGo env maxRetries fuel (attempt + 1) (httpErrorMsg r))

/-- The retrying `callGeminiAPI` of `src/server.js` (lines 129-210): one
rate-limiter admission (`await rateLimiter.checkRateLimit()`, line 131)
before the loop, then the attempt loop starting at attempt 1. -/
def callGeminiV1 (env : Nat → FetchOutcome) (retries : Nat) : CallTrace :=
  let t := geminiGo env retries retries 1 ""
  ⟨t.fetches, t.admits + 1, t.delays, t.result⟩

/-! ## Rate limiter (`src/server.js` lines 67-82)

`checkRateLimit` reads `now = Date.now()`; if less than `minInterval` ms
passed since `lastCallTime` it awaits the difference, then records
`Date.now()` (idealized clock: exactly `now + waitTime`) as the new
`lastCallTime`.  A sequential run is modelled by the gaps `d` between the
return of one admission and the `Date.now()` read of the next. -/

def minInterval : Nat := 100

/-- One `checkRateLimit` call: given the stored `lastCallTime` and the
current time `now`, returns the new recorded `lastCallTime`. -/
def checkRateLimit (last now : Nat) : Nat :=
  if now - last < minInterval then now + (minInterval - (now - last)) else now

/-- Sequential run of the limiter: starting from stored time `last`, the
k-th admission request arrives `ds[k]` ms after the previous admission was
recorded.  Returns the list of recorded `lastCallTime` values in order. -/
def limiterRun : Nat → List Nat → List Nat
  | _, [] => []
  | last, d :: ds =>
    checkRateLimit last (last + d) :: limiterRun (checkRateLimit last (last + d)) ds

/-! ## Non-retrying gateways (second `src/server.js` variant and `part_002`) -/

/-- The simplified `callGeminiAPI` of the second `src/server.js` variant
(lines 546-568): no retry, no rate limiter; a non-2xx response throws
`Gemini API错误: $\x7bstatus\x7d $\x7bstatusText\x7d`; a 2xx response always
resolves, via `extractSimple`. -/
def callGeminiV2 (f : FetchOutcome) : JsResult :=
  match f with
  | .netError m => .err m
  | .response r =>
    if r.ok then .ret (some (extractSimple r.data))
    else .err ("Gemini API错误: " ++ toString r.status ++ " " ++ r.statusText)

/-- Result of the `part_002` `callGeminiAPI`: value, rejection with an error
message, or a JS `TypeError` from the unguarded field access (whose message
text is runtime-specific and therefore kept abstract). -/
inductive Pt2Result
  | ret (v : Option String)
  | err (msg : String)
  | typeErr
deriving DecidableEq

/-- The `part_002` `callGeminiAPI` (lines 46-87): no retry, no rate limiter;
a non-2xx response throws `Gemini API error: $\x7bstatus\x7d $\x7bstatusText\x7d`
(no body text); a 2xx response goes through `extractPt2` where the
`formatThrow` branch throws `'Unexpected response format from Gemini API'`.
The surrounding `catch` only logs and re-throws, so it does not change the
outcome. -/
def callGeminiPt2 (f : FetchOutcome) : Pt2Result :=
  match f with
  | .netError m => .err m
  | .response r =>
    if r.ok then
      match extractPt2 r.data with
      | .ret v => .ret v
      | .formatThrow => .err "Unexpected response format from Gemini API"
      | .typeThrow => .typeErr
    else .err ("Gemini API error: " ++ toString r.status ++ " " ++ r.statusText)

/-! ## Tool dispatch (`CallToolRequestSchema` handlers)

Arguments are a finite map from string keys to primitive JS values.  MCP
error codes follow the JSON-RPC numbering used by the SDK's `ErrorCode`. -/

inductive JsValue
  | str (s : String)
  | num (n : Int)
  | undef
deriving DecidableEq

def getArg : List (String × JsValue) → String → JsValue
  | [], _ => .undef
  | (k, v) :: rest, key => if k = key then v else getArg rest key

inductive ErrCode
  | invalidParams
  | methodNotFound
  | internalError
deriving DecidableEq

def ErrCode.code : ErrCode → Int
  | .invalidParams => -32602
  | .methodNotFound => -32601
  | .internalError => -32603

/-- The `.message` of a JS `McpError`: the SDK constructor sets
`message = 'MCP error ' + code + ': ' + msg`. -/
def mcpErrorMessage (c : ErrCode) (msg : String) : String :=
  "MCP error " ++ toString c.code ++ ": " ++ msg

/-- What the tool handler delivers to the SDK: an ordinary MCP
`content: [\x7btype:'text', text\x7d]` reply, or a thrown `McpError`
(which the SDK turns into a protocol error response with that code).
`protocolError c m` records the constructor arguments of the `McpError`. -/
inductive ToolOutcome
  | reply (text : String)
  | protocolError (code : ErrCode) (msg : String)
deriving DecidableEq

/-- Trace of one `tools/call` dispatch: number of provider `fetch` calls
made, and the outcome delivered. -/
structure ToolTrace where
  fetches : Nat
  outcome : ToolOutcome
deriving DecidableEq

/-- JS template interpolation of a possibly-`undefined` string value. -/
def jsDisplay : Option String → String
  | some s => s
  | none => "undefined"

/-- Error text produced by the inner catch of the main variant's
`generate_text` handler (`src/server.js` lines 343-347). -/
def genTextErrorMessage (msg : String) : String :=
  if jsIncludes msg "503" then
    "⚠️ Gemini AI服务暂时不可用，请稍后重试 / Gemini AI service temporarily unavailable, please try again later"
  else if jsIncludes msg "429" then
    "⚠️ API调用频率过高，请稍后重试 / API rate limit exceeded, please try again later"
  else "❌ API调用失败 / API call failed: " ++ msg

/-- Error text produced by the inner catch of the main variant's
`translate_text` handler (`src/server.js` lines 385-389). -/
def translateErrorMessage (msg : String) : String :=
  if jsIncludes msg "503" then
    "⚠️ 翻译服务暂时不可用，请稍后重试 / Translation service temporarily unavailable, please try again later"
  else if jsIncludes msg "429" then
    "⚠️ API调用频率过高，请稍后重试 / API rate limit exceeded, please try again later"
  else "❌ 翻译失败 / Translation failed: " ++ msg

/-- Error text produced by the inner catch of the main variant's
`summarize_text` handler (`src/server.js` lines 424-428). -/
def summarizeErrorMessage (msg : String) : String :=
  if jsIncludes msg "503" then
    "⚠️ 总结服务暂时不可用，请稍后重试 / Summary service temporarily unavailable, please try again later"
  else if jsIncludes msg "429" then
    "⚠️ API调用频率过高，请稍后重试 / API rate limit exceeded, please try again later"
  else "❌ 总结失败 / Summary failed: " ++ msg

/-- The outer catch of the main variant (`src/server.js` lines 445-449): any
error thrown inside the `try` — including the `McpError`s thrown for invalid
parameters and unknown tools — is replaced by
`McpError(ErrorCode.InternalError, '工具执行失败 / Tool execution failed: '
+ error.message)`. -/
def wrapV1 (inner : ErrCode) (msg : String) : ToolOutcome :=
  .protocolError .internalError
    ("工具执行失败 / Tool execution failed: " ++ mcpErrorMessage inner msg)

/-- The `CallToolRequestSchema` handler of the main `src/server.js` variant
(lines 308-450).  Each known tool validates argument types, calls the
retrying `callGeminiAPI` (with its own inner catch turning provider failures
into plain-text replies), and the outer catch wraps every thrown `McpError`
into an `InternalError`. -/
def handleToolV1 (env : Nat → FetchOutcome) (name : String)
    (args : List (String × JsValue)) : ToolTrace :=
  if name = "generate_text" then
    match getArg args "prompt" with
    | .str _ =>
      let t := callGeminiV1 env 3
      match t.result with
      | .ret v => ⟨t.fetches, .reply ("生成的文本 / Generated text:\n" ++ jsDisplay v)⟩
      | .err m => ⟨t.fetches, .reply (genTextErrorMessage m)⟩
    | _ => ⟨0, wrapV1 .invalidParams "提示必须是字符串 / Prompt must be a string"⟩
  else if name = "translate_text" then
    match getArg args "text", getArg args "target_language" with
    | .str _, .str _ =>
      let t := callGeminiV1 env 3
      match t.result with
      | .ret v => ⟨t.fetches, .reply ("翻译结果 / Translation result:\n" ++ jsDisplay v)⟩
      | .err m => ⟨t.fetches, .reply (translateErrorMessage m)⟩
    | _, _ =>
      ⟨0, wrapV1 .invalidParams "文本和目标语言必须是字符串 / Text and target language must be strings"⟩
  else if name = "summarize_text" then
    match getArg args "text" with
    | .str _ =>
      let t := callGeminiV1 env 3
      match t.result with
      | .ret v => ⟨t.fetches, .reply ("总结结果 / Summary result:\n" ++ jsDisplay v)⟩
      | .err m => ⟨t.fetches, .reply (summarizeErrorMessage m)⟩
    | _ => ⟨0, wrapV1 .invalidParams "文本必须是字符串 / Text must be a string"⟩
  else ⟨0, wrapV1 .methodNotFound ("未知工具 / Unknown tool: " ++ name)⟩

/-- The `CallToolRequestSchema` handler of the second `src/server.js`
variant (lines 610-651).  No inner catch around the provider call; the outer
catch re-throws `McpError`s unchanged (`if (error instanceof McpError) throw
error`) and wraps everything else as `InternalError`. -/
def handleToolV2 (f : FetchOutcome) (name : String)
    (args : List (String × JsValue)) : ToolTrace :=
  if name = "generate_text" then
    match getArg args "prompt" with
    | .str _ =>
      match callGeminiV2 f with
      | .ret v => ⟨1, .reply (jsDisplay v)⟩
      | .err m => ⟨1, .protocolError .internalError ("工具执行失败: " ++ m)⟩
    | _ => ⟨0, .protocolError .invalidParams "提示必须是字符串"⟩
  else if name = "translate_text" then
    match getArg args "text", getArg args "target_language" with
    | .str _, .str _ =>
      match callGeminiV2 f with
      | .ret v => ⟨1, .reply (jsDisplay v)⟩
      | .err m => ⟨1, .protocolError .internalError ("工具执行失败: " ++ m)⟩
    | _, _ => ⟨0, .protocolError .invalidParams "文本和目标语言必须是字符串"⟩
  else if name = "summarize_text" then
    match getArg args "text" with
    | .str _ =>
      match callGeminiV2 f with
      | .ret v => ⟨1, .reply (jsDisplay v)⟩
      | .err m => ⟨1, .protocolError .internalError ("工具执行失败: " ++ m)⟩
    | _ => ⟨0, .protocolError .invalidParams "文本必须是字符串"⟩
  else ⟨0, .protocolError .methodNotFound ("未知工具: " ++ name)⟩

/-- The `CallToolRequestSchema` handler of `src/unnamed/part_002` (lines
149-224).  No inner catch around the provider call, and the outer catch
wraps every thrown error — `McpError`s included — into `InternalError`.
`tyMsg` stands for the runtime-specific message of a JS `TypeError` raised
by the unguarded access in `extractPt2`. -/
def handleToolPt2 (tyMsg : String) (f : FetchOutcome) (name : String)
    (args : List (String × JsValue)) : ToolTrace :=
  let provider (prefixText : String) : ToolTrace :=
    match callGeminiPt2 f with
    | .ret v => ⟨1, .reply (prefixText ++ jsDisplay v)⟩
    | .err m =>
      ⟨1, .protocolError .internalError ("工具执行失败 / Tool execution failed: " ++ m)⟩
    | .typeErr =>
      ⟨1, .protocolError .internalError ("工具执行失败 / Tool execution failed: " ++ tyMsg)⟩
  if name = "generate_text" then
    match getArg args "prompt" with
    | .str _ => provider "生成的文本 / Generated text:\n"
    | _ => ⟨0, wrapV1 .invalidParams "提示必须是字符串 / Prompt must be a string"⟩
  else if name = "translate_text" then
    match getArg args "text", getArg args "target_language" with
    | .str _, .str _ => provider "翻译结果 / Translation result:\n"
    | _, _ =>
      ⟨0, wrapV1 .invalidParams "文本和目标语言必须是字符串 / Text and target language must be strings"⟩
  else if name = "summarize_text" then
    match getArg args "text" with
    | .str _ => provider "总结结果 / Summary result:\n"
    | _ => ⟨0, wrapV1 .invalidParams "文本必须是字符串 / Text must be a string"⟩
  else ⟨0, wrapV1 .methodNotFound ("未知工具 / Unknown tool: " ++ name)⟩

/-- The protocol error code surfaced by a tool outcome, if any. -/
def ToolOutcome.errCode : ToolOutcome → Option ErrCode
  | .reply _ => none
  | .protocolError c _ => some c

/-! ## Helper lemmas -/

/-- On the last attempt the catch block always ends in `throw`: immediately
for a non-retryable message, and via `throw lastError` after the loop for a
retryable one. -/
theorem catchStep_last (mr a : Nat) (m : String) (rest : CallTrace) (h : ¬ a < mr) :
    catchStep mr a m rest = ⟨1, 0, [], .err m⟩ := by
  unfold catchStep
  cases hr : retryableMsg m <;> simp [hr, h]

/-- A non-retryable message short-circuits the catch block with a throw. -/
theorem catchStep_fatal (mr a : Nat) (m : String) (rest : CallTrace)
    (hr : retryableMsg m = false) :
    catchStep mr a m rest = ⟨1, 0, [], .err m⟩ := by
  unfold catchStep
  rw [hr]
  simp

theorem catchStep_admits (mr a : Nat) (m : String) (rest : CallTrace)
    (h : rest.admits = 0) : (catchStep mr a m rest).admits = 0 := by
  unfold catchStep
  cases hr : retryableMsg m
  · simp
  · by_cases h2 : a < mr <;> simp [h2, h]

/-- The attempt loop itself never calls `checkRateLimit`: the only admission
happens once, before the loop (`src/server.js` line 131). -/
theorem geminiGo_admits (env : Nat → FetchOutcome) (mr : Nat) :
    ∀ fuel attempt lastError, (geminiGo env mr fuel attempt lastError).admits = 0 := by
  intro fuel
  induction fuel with
  | zero => intro _ _; rfl
  | succ n ih =>
    intro attempt lastError
    unfold geminiGo
    cases he : env attempt with
    | netError m => exact catchStep_admits _ _ _ _ (ih _ _)
    | response r =>
      dsimp only
      split
      · split
        · rfl
        · exact catchStep_admits _ _ _ _ (ih _ _)
      · split
        · split
          · exact ih _ _
          · exact catchStep_admits _ _ _ _ (ih _ _)
        · exact catchStep_admits _ _ _ _ (ih _ _)

theorem callGeminiV1_eq (env : Nat → FetchOutcome) (retries : Nat) (t : CallTrace)
    (h : geminiGo env retries retries 1 "" = t) :
    callGeminiV1 env retries = ⟨t.fetches, t.admits + 1, t.delays, t.result⟩ := by
  unfold callGeminiV1
  rw [h]

/-- The message of any 429 HTTP failure contains the substring `'429'`, so
the catch block classifies it as retryable whatever the status text and body
are. -/
theorem retryable_429 (st bt : String) :
    retryableMsg (httpErrorMsg (failResponse 429 st bt)) = true := by
  have hP : jsIncludes (("Gemini API error: " ++ toString (429 : Nat)) ++ " ") "429" = true := by
    decide
  have h : jsIncludes (httpErrorMsg (failResponse 429 st bt)) "429" = true := by
    show jsIncludes (((("Gemini API error: " ++ toString (429 : Nat)) ++ " ") ++ st) ++
      (if bt = "" then "" else " - " ++ bt)) "429" = true
    exact jsIncludes_append_left _ _ _ (jsIncludes_append_left _ _ _ hP)
  unfold retryableMsg
  rw [h]
  simp

/-- A non-2xx attempt whose status is not 503/429 and whose message matches
no retryable marker throws straight through the catch block. -/
theorem geminiGo_fail_fatal (env : Nat → FetchOutcome) (mr fuel attempt : Nat)
    (lastError : String) (r : HttpResponse) (he : env attempt = .response r)
    (hok : r.ok = false) (hs : (r.status == 503 || r.status == 429) = false)
    (hr : retryableMsg (httpErrorMsg r) = false) :
    geminiGo env mr (fuel + 1) attempt lastError = ⟨1, 0, [], .err (httpErrorMsg r)⟩ := by
  unfold geminiGo
  rw [he]
  dsimp only
  rw [if_neg (by simp [hok]), if_neg (by simp [hs])]
  exact catchStep_fatal _ _ _ _ hr

theorem checkRateLimit_ge (last d : Nat) :
    last + minInterval ≤ checkRateLimit last (last + d) := by
  unfold checkRateLimit minInterval
  split <;> omega

theorem limiterRun_ge (last : Nat) (ds : List Nat) :
    ∀ x ∈ limiterRun last ds, last + minInterval ≤ x := by
  induction ds generalizing last with
  | nil => intro x hx; simp [limiterRun] at hx
  | cons d ds ih =>
    intro x hx
    simp only [limiterRun, List.mem_cons] at hx
    rcases hx with h | h
    · subst h; exact checkRateLimit_ge last d
    · have h1 := ih (checkRateLimit last (last + d)) x h
      have h2 := checkRateLimit_ge last d
      omega

theorem limiterRun_pairwise (last : Nat) (ds : List Nat) :
    List.Pairwise (fun a b => a + minInterval ≤ b) (limiterRun last ds) := by
  induction ds generalizing last with
  | nil => simp [limiterRun]
  | cons d ds ih =>
    simp only [limiterRun]
    rw [List.pairwise_cons]
    exact ⟨fun b hb => limiterRun_ge _ _ b hb, ih _⟩

/-- A list whose consecutive entries are at least `minInterval` apart has at
most one entry inside any half-open window of length `minInterval`. -/
theorem pairwise_window_le_one (l : List Nat)
    (hp : List.Pairwise (fun a b => a + minInterval ≤ b) l) (t : Nat) :
    l.countP (fun x => decide (t ≤ x) && decide (x < t + minInterval)) ≤ 1 := by
  induction l with
  | nil => simp
  | cons a l ih =>
    rw [List.pairwise_cons] at hp
    rw [List.countP_cons]
    by_cases ha : (decide (t ≤ a) && decide (a < t + minInterval)) = true
    · have h0 : l.countP (fun x => decide (t ≤ x) && decide (x < t + minInterval)) = 0 := by
        rw [List.countP_eq_zero]
        intro b hb
        have hab := hp.1 b hb
        simp only [Bool.and_eq_true, decide_eq_true_eq] at ha ⊢
        omega
      simp [h0, ha]
    · have := ih hp.2
      simp [ha]
      omega

/-! ## Claim theorems -/

/-- C1: with the default attempt budget of 3, if the provider answers 503 on
attempts 1 and 2 and a well-formed 2xx response carrying text `X` on attempt
3, the retrying `callGeminiAPI` makes exactly 3 HTTP calls, waits 1000 ms
before attempt 2 and 2000 ms before attempt 3 (total backoff 3000 ms), and
resolves with exactly `X`; one rate-limiter admission runs. -/
theorem c1_503_503_success (st1 st2 b1 b2 ds X : String) :
    callGeminiV1 (fun i =>
        if i = 1 then .response (failResponse 503 st1 b1)
        else if i = 2 then .response (failResponse 503 st2 b2)
        else .response (okResponse (wellFormed X) ds)) 3
      = ⟨3, 1, [1000, 2000], .ret (some X)⟩ := rfl

/-- C2: with the default attempt budget of 3, if every attempt fails with
HTTP 429, the retrying `callGeminiAPI` makes exactly 3 HTTP calls with
backoff 1000 ms + 2000 ms and rejects with the error of the third attempt
(built from the third response's status text and body); that final error is
classified retryable, and it is raised, not swallowed. -/
theorem c2_429_exhaustion (st bt : Nat → String) :
    callGeminiV1 (fun i => .response (failResponse 429 (st i) (bt i))) 3
      = ⟨3, 1, [1000, 2000], .err (httpErrorMsg (failResponse 429 (st 3) (bt 3)))⟩
    ∧ retryableMsg (httpErrorMsg (failResponse 429 (st 3) (bt 3))) = true := by
  constructor
  · have h1 : geminiGo (fun i => .response (failResponse 429 (st i) (bt i))) 3 3 1 ""
        = retryCont 1 (retryCont 2
            (catchStep 3 3 (httpErrorMsg (failResponse 429 (st 3) (bt 3)))
              ⟨0, 0, [], .err (httpErrorMsg (failResponse 429 (st 3) (bt 3)))⟩)) := rfl
    have h2 : geminiGo (fun i => .response (failResponse 429 (st i) (bt i))) 3 3 1 ""
        = ⟨3, 0, [1000, 2000], .err (httpErrorMsg (failResponse 429 (st 3) (bt 3)))⟩ := by
      rw [h1, catchStep_last 3 3 _ _ (by omega)]
      rfl
    exact callGeminiV1_eq _ _ _ h2
  · exact retryable_429 _ _

/-- C3 counterexample: a response with the fatal status 400 on every attempt
is nevertheless retried twice — 3 HTTP calls and 1000 ms + 2000 ms of
backoff instead of the claimed single call and immediate propagation —
because the body text `"quota 429 exceeded"` makes the substring-based
classification of `src/server.js` line 193 deem the message retryable. -/
theorem c3_counterexample :
    (callGeminiV1 (fun _ =>
        .response (failResponse 400 "Bad Request" "quota 429 exceeded")) 3).fetches = 3
    ∧ (callGeminiV1 (fun _ =>
        .response (failResponse 400 "Bad Request" "quota 429 exceeded")) 3).delays
        = [1000, 2000] := by
  decide

/-- C3 (amended): a first-attempt response whose status is neither 503 nor
429 *and whose rendered error message contains none of the substrings
`'503'`, `'429'`, `'ECONNRESET'`, `'ETIMEDOUT'`* propagates immediately:
exactly 1 HTTP call, no backoff delay, and the failure is raised as-is. -/
theorem c3_fatal_immediate (status : Nat) (st bt : String)
    (hs : (status == 503 || status == 429) = false)
    (hr : retryableMsg (httpErrorMsg (failResponse status st bt)) = false) :
    callGeminiV1 (fun _ => .response (failResponse status st bt)) 3
      = ⟨1, 1, [], .err (httpErrorMsg (failResponse status st bt))⟩ := by
  have h : geminiGo (fun _ => .response (failResponse status st bt)) 3 3 1 ""
      = ⟨1, 0, [], .err (httpErrorMsg (failResponse status st bt))⟩ :=
    geminiGo_fail_fatal _ 3 2 1 "" (failResponse status st bt) rfl rfl hs hr
  exact callGeminiV1_eq _ _ _ h

/-- Witness for `c3_fatal_immediate` at a plain `400 Bad Request` with empty
body. -/
theorem c3_fatal_immediate_witness :
    callGeminiV1 (fun _ => .response (failResponse 400 "Bad Request" "")) 3
      = ⟨1, 1, [], .err (httpErrorMsg (failResponse 400 "Bad Request" ""))⟩ :=
  c3_fatal_immediate 400 "Bad Request" "" (by decide) (by decide)

/-- C4 counterexample: a run with three attempts (503, 503, success) makes 3
network calls but performs only 1 rate-limiter admission, so attempts 2 and
3 issue their network calls without an immediately preceding admission. -/
theorem c4_counterexample :
    (callGeminiV1 (fun i =>
        if i ≤ 2 then .response (failResponse 503 "Service Unavailable" "")
        else .response (okResponse (wellFormed "ok") "")) 3).fetches = 3
    ∧ (callGeminiV1 (fun i =>
        if i ≤ 2 then .response (failResponse 503 "Service Unavailable" "")
        else .response (okResponse (wellFormed "ok") "")) 3).admits = 1 := by
  decide

/-- C4 (amended): the rate limiter's `checkRateLimit` runs exactly once per
logical `callGeminiAPI` invocation — before attempt 1 — for every
environment and retry budget; retry attempts do not pass through admission
and consume no extra rate-limit budget. -/
theorem c4_admit_once (env : Nat → FetchOutcome) (retries : Nat) :
    (callGeminiV1 env retries).admits = 1 := by
  show (geminiGo env retries retries 1 "").admits + 1 = 1
  rw [geminiGo_admits]

/-- C5: in the sequential model of the limiter, the recorded `lastCallTime`
values of any run are pairwise at least `minInterval = 100` ms apart, are
monotonically non-decreasing, and no half-open 100 ms window contains more
than one recorded admission timestamp. -/
theorem c5_rate_limiter (last : Nat) (ds : List Nat) :
    List.Pairwise (fun a b => a + minInterval ≤ b) (limiterRun last ds)
    ∧ List.Sorted (· ≤ ·) (limiterRun last ds)
    ∧ ∀ t, (limiterRun last ds).countP
        (fun x => decide (t ≤ x) && decide (x < t + minInterval)) ≤ 1 := by
  have hp := limiterRun_pairwise last ds
  exact ⟨hp, hp.imp (fun h => by omega), fun t => pairwise_window_le_one _ hp t⟩

/-- C6 counterexample: in the simplified second `src/server.js` variant, a
2xx response whose body lacks `candidates` makes `callGeminiAPI` resolve
with the substitute string `'无法获取响应'` — an ordinary value, not a fatal
error. -/
theorem c6_counterexample :
    callGeminiV2 (.response (okResponse ⟨none⟩ "\x7b\x7d")) = .ret (some "无法获取响应") := by
  decide

/-- C6 (amended): a well-formed Variant-A response yields exactly `X` in the
retrying gateway and in `part_002` (and in the simplified gateway whenever
`X` is non-empty); a 2xx response missing `candidates` is a fatal error in
the retrying gateway — one call, no backoff — provided its serialization
contains no retryable marker, while the simplified gateway instead resolves
with the substitute string `'无法获取响应'`. -/
theorem c6_variant_extraction (X ds : String) (d : GeminiData)
    (hX : X ≠ "") (hd : d.candidates = none)
    (hr : retryableMsg (formatErrorMsg ds) = false) :
    callGeminiV1 (fun _ => .response (okResponse (wellFormed X) ds)) 3
      = ⟨1, 1, [], .ret (some X)⟩
    ∧ extractPt2 (wellFormed X) = .ret (some X)
    ∧ extractSimple (wellFormed X) = X
    ∧ callGeminiV1 (fun _ => .response (okResponse d ds)) 3
      = ⟨1, 1, [], .err (formatErrorMsg ds)⟩
    ∧ callGeminiV2 (.response (okResponse d ds)) = .ret (some "无法获取响应") := by
  obtain ⟨cand⟩ := d
  subst hd
  refine ⟨rfl, rfl, ?_, ?_, rfl⟩
  · show (if X = "" then "无法获取响应" else X) = X
    rw [if_neg hX]
  · have h : geminiGo (fun _ => .response (okResponse ⟨none⟩ ds)) 3 3 1 ""
        = catchStep 3 1 (formatErrorMsg ds)
            (geminiGo (fun _ => .response (okResponse ⟨none⟩ ds)) 3 2 2 (formatErrorMsg ds)) := rfl
    have h2 : geminiGo (fun _ => .response (okResponse ⟨none⟩ ds)) 3 3 1 ""
        = ⟨1, 0, [], .err (formatErrorMsg ds)⟩ := by
      rw [h, catchStep_fatal _ _ _ _ hr]
    exact callGeminiV1_eq _ _ _ h2

/-- Witness for `c6_variant_extraction` at `X = "X"` and the empty-object
body `\x7b\x7d`. -/
theorem c6_variant_extraction_witness :
    callGeminiV1 (fun _ => .response (okResponse (wellFormed "X") "\x7b\x7d")) 3
      = ⟨1, 1, [], .ret (some "X")⟩
    ∧ extractPt2 (wellFormed "X") = .ret (some "X")
    ∧ extractSimple (wellFormed "X") = "X"
    ∧ callGeminiV1 (fun _ => .response (okResponse ⟨none⟩ "\x7b\x7d")) 3
      = ⟨1, 1, [], .err (formatErrorMsg "\x7b\x7d")⟩
    ∧ callGeminiV2 (.response (okResponse ⟨none⟩ "\x7b\x7d")) = .ret (some "无法获取响应") :=
  c6_variant_extraction "X" "\x7b\x7d" ⟨none⟩ (by decide) rfl (by decide)

/-- C7 counterexample: in the main `src/server.js` variant, calling an
unknown tool surfaces `InternalError` (-32603) to the caller — the
`MethodNotFound` thrown at line 443 is swallowed by the outer catch at line
448 and re-wrapped — although zero network calls are indeed made. -/
theorem c7_counterexample :
    handleToolV1 (fun _ => .netError "") "nonexistent_tool" []
      = ⟨0, .protocolError .internalError
          "工具执行失败 / Tool execution failed: MCP error -32601: 未知工具 / Unknown tool: nonexistent_tool"⟩
    ∧ ErrCode.internalError ≠ ErrCode.methodNotFound := by
  decide

/-- C7 (amended): a `tools/call` for a name outside the fixed tool set makes
zero network calls in every variant; the simplified second variant surfaces
`MethodNotFound`, while the main variant and `part_002` wrap it and surface
`InternalError` whose message embeds the method-not-found text. -/
theorem c7_unknown_tool (env : Nat → FetchOutcome) (f : FetchOutcome)
    (tyMsg name : String) (args : List (String × JsValue))
    (h1 : name ≠ "generate_text") (h2 : name ≠ "translate_text")
    (h3 : name ≠ "summarize_text") :
    handleToolV1 env name args
      = ⟨0, .protocolError .internalError ("工具执行失败 / Tool execution failed: "
          ++ mcpErrorMessage .methodNotFound ("未知工具 / Unknown tool: " ++ name))⟩
    ∧ handleToolV2 f name args
      = ⟨0, .protocolError .methodNotFound ("未知工具: " ++ name)⟩
    ∧ handleToolPt2 tyMsg f name args
      = ⟨0, .protocolError .internalError ("工具执行失败 / Tool execution failed: "
          ++ mcpErrorMessage .methodNotFound ("未知工具 / Unknown tool: " ++ name))⟩ := by
  refine ⟨?_, ?_, ?_⟩ <;>
    simp [handleToolV1, handleToolV2, handleToolPt2, h1, h2, h3, wrapV1]

/-- Witness for `c7_unknown_tool` at the tool name `"nonexistent_tool"`. -/
theorem c7_unknown_tool_witness :
    handleToolV1 (fun _ => .netError "") "nonexistent_tool" []
      = ⟨0, .protocolError .internalError ("工具执行失败 / Tool execution failed: "
          ++ mcpErrorMessage .methodNotFound ("未知工具 / Unknown tool: " ++ "nonexistent_tool"))⟩
    ∧ handleToolV2 (.netError "") "nonexistent_tool" []
      = ⟨0, .protocolError .methodNotFound ("未知工具: " ++ "nonexistent_tool")⟩
    ∧ handleToolPt2 "" (.netError "") "nonexistent_tool" []
      = ⟨0, .protocolError .internalError ("工具执行失败 / Tool execution failed: "
          ++ mcpErrorMessage .methodNotFound ("未知工具 / Unknown tool: " ++ "nonexistent_tool"))⟩ :=
  c7_unknown_tool (fun _ => .netError "") (.netError "") "" "nonexistent_tool" []
    (by decide) (by decide) (by decide)

/-- C8 counterexample: in the main `src/server.js` variant, calling
`generate_text` with a numeric `prompt` surfaces `InternalError` (-32603) —
the `InvalidParams` thrown at line 326 is swallowed by the outer catch and
re-wrapped — although zero network calls are indeed made. -/
theorem c8_counterexample :
    handleToolV1 (fun _ => .netError "") "generate_text" [("prompt", .num 42)]
      = ⟨0, .protocolError .internalError
          "工具执行失败 / Tool execution failed: MCP error -32602: 提示必须是字符串 / Prompt must be a string"⟩
    ∧ ErrCode.internalError ≠ ErrCode.invalidParams := by
  decide

/-- C8 (amended): a known tool called with a wrongly-typed required argument
— `generate_text` with a non-string `prompt`, `translate_text` with a
non-string `text` or a non-string `target_language`, `summarize_text` with a
non-string `text` — makes zero network calls in every variant; the
simplified second variant surfaces `InvalidParams`, while the main variant
and `part_002` wrap it and surface `InternalError` whose message embeds the
invalid-params text. -/
theorem c8_wrong_type (env : Nat → FetchOutcome) (f : FetchOutcome)
    (tyMsg p : String) (v : JsValue) (hv : ∀ s, v ≠ .str s) :
    (handleToolV1 env "generate_text" [("prompt", v)]
      = ⟨0, .protocolError .internalError ("工具执行失败 / Tool execution failed: "
          ++ mcpErrorMessage .invalidParams "提示必须是字符串 / Prompt must be a string")⟩
    ∧ handleToolV2 f "generate_text" [("prompt", v)]
      = ⟨0, .protocolError .invalidParams "提示必须是字符串"⟩
    ∧ handleToolPt2 tyMsg f "generate_text" [("prompt", v)]
      = ⟨0, .protocolError .internalError ("工具执行失败 / Tool execution failed: "
          ++ mcpErrorMessage .invalidParams "提示必须是字符串 / Prompt must be a string")⟩)
    ∧ (handleToolV1 env "translate_text" [("text", v), ("target_language", .str p)]
      = ⟨0, .protocolError .internalError ("工具执行失败 / Tool execution failed: "
          ++ mcpErrorMessage .invalidParams
            "文本和目标语言必须是字符串 / Text and target language must be strings")⟩
    ∧ handleToolV2 f "translate_text" [("text", v), ("target_language", .str p)]
      = ⟨0, .protocolError .invalidParams "文本和目标语言必须是字符串"⟩
    ∧ handleToolPt2 tyMsg f "translate_text" [("text", v), ("target_language", .str p)]
      = ⟨0, .protocolError .internalError ("工具执行失败 / Tool execution failed: "
          ++ mcpErrorMessage .invalidParams
            "文本和目标语言必须是字符串 / Text and target language must be strings")⟩)
    ∧ (handleToolV1 env "translate_text" [("text", .str p), ("target_language", v)]
      = ⟨0, .protocolError .internalError ("工具执行失败 / Tool execution failed: "
          ++ mcpErrorMessage .invalidParams
            "文本和目标语言必须是字符串 / Text and target language must be strings")⟩
    ∧ handleToolV2 f "translate_text" [("text", .str p), ("target_language", v)]
      = ⟨0, .protocolError .invalidParams "文本和目标语言必须是字符串"⟩
    ∧ handleToolPt2 tyMsg f "translate_text" [("text", .str p), ("target_language", v)]
      = ⟨0, .protocolError .internalError ("工具执行失败 / Tool execution failed: "
          ++ mcpErrorMessage .invalidParams
            "文本和目标语言必须是字符串 / Text and target language must be strings")⟩)
    ∧ (handleToolV1 env "summarize_text" [("text", v)]
      = ⟨0, .protocolError .internalError ("工具执行失败 / Tool execution failed: "
          ++ mcpErrorMessage .invalidParams "文本必须是字符串 / Text must be a string")⟩
    ∧ handleToolV2 f "summarize_text" [("text", v)]
      = ⟨0, .protocolError .invalidParams "文本必须是字符串"⟩
    ∧ handleToolPt2 tyMsg f "summarize_text" [("text", v)]
      = ⟨0, .protocolError .internalError ("工具执行失败 / Tool execution failed: "
          ++ mcpErrorMessage .invalidParams "文本必须是字符串 / Text must be a string")⟩) := by
  cases v with
  | str s => exact absurd rfl (hv s)
  | num n => exact ⟨⟨rfl, rfl, rfl⟩, ⟨rfl, rfl, rfl⟩, ⟨rfl, rfl, rfl⟩, ⟨rfl, rfl, rfl⟩⟩
  | undef => exact ⟨⟨rfl, rfl, rfl⟩, ⟨rfl, rfl, rfl⟩, ⟨rfl, rfl, rfl⟩, ⟨rfl, rfl, rfl⟩⟩

/-- Witness for `c8_wrong_type` at the numeric argument `42`. -/
theorem c8_wrong_type_witness :
    (handleToolV1 (fun _ => .netError "") "generate_text" [("prompt", .num 42)]
      = ⟨0, .protocolError .internalError ("工具执行失败 / Tool execution failed: "
          ++ mcpErrorMessage .invalidParams "提示必须是字符串 / Prompt must be a string")⟩
    ∧ handleToolV2 (.netError "") "generate_text" [("prompt", .num 42)]
      = ⟨0, .protocolError .invalidParams "提示必须是字符串"⟩
    ∧ handleToolPt2 "" (.netError "") "generate_text" [("prompt", .num 42)]
      = ⟨0, .protocolError .internalError ("工具执行失败 / Tool execution failed: "
          ++ mcpErrorMessage .invalidParams "提示必须是字符串 / Prompt must be a string")⟩)
    ∧ (handleToolV1 (fun _ => .netError "") "translate_text"
          [("text", .num 42), ("target_language", .str "French")]
      = ⟨0, .protocolError .internalError ("工具执行失败 / Tool execution failed: "
          ++ mcpErrorMessage .invalidParams
            "文本和目标语言必须是字符串 / Text and target language must be strings")⟩
    ∧ handleToolV2 (.netError "") "translate_text"
          [("text", .num 42), ("target_language", .str "French")]
      = ⟨0, .protocolError .invalidParams "文本和目标语言必须是字符串"⟩
    ∧ handleToolPt2 "" (.netError "") "translate_text"
          [("text", .num 42), ("target_language", .str "French")]
      = ⟨0, .protocolError .internalError ("工具执行失败 / Tool execution failed: "
          ++ mcpErrorMessage .invalidParams
            "文本和目标语言必须是字符串 / Text and target language must be strings")⟩)
    ∧ (handleToolV1 (fun _ => .netError "") "translate_text"
          [("text", .str "French"), ("target_language", .num 42)]
      = ⟨0, .protocolError .internalError ("工具执行失败 / Tool execution failed: "
          ++ mcpErrorMessage .invalidParams
            "文本和目标语言必须是字符串 / Text and target language must be strings")⟩
    ∧ handleToolV2 (.netError "") "translate_text"
          [("text", .str "French"), ("target_language", .num 42)]
      = ⟨0, .protocolError .invalidParams "文本和目标语言必须是字符串"⟩
    ∧ handleToolPt2 "" (.netError "") "translate_text"
          [("text", .str "French"), ("target_language", .num 42)]
      = ⟨0, .protocolError .internalError ("工具执行失败 / Tool execution failed: "
          ++ mcpErrorMessage .invalidParams
            "文本和目标语言必须是字符串 / Text and target language must be strings")⟩)
    ∧ (handleToolV1 (fun _ => .netError "") "summarize_text" [("text", .num 42)]
      = ⟨0, .protocolError .internalError ("工具执行失败 / Tool execution failed: "
          ++ mcpErrorMessage .invalidParams "文本必须是字符串 / Text must be a string")⟩
    ∧ handleToolV2 (.netError "") "summarize_text" [("text", .num 42)]
      = ⟨0, .protocolError .invalidParams "文本必须是字符串"⟩
    ∧ handleToolPt2 "" (.netError "") "summarize_text" [("text", .num 42)]
      = ⟨0, .protocolError .internalError ("工具执行失败 / Tool execution failed: "
          ++ mcpErrorMessage .invalidParams "文本必须是字符串 / Text must be a string")⟩) :=
  c8_wrong_type (fun _ => .netError "") (.netError "") "" "French" (.num 42)
    (fun _ h => JsValue.noConfusion h)

/-- C9 counterexample: in `part_002`, a provider failure (HTTP 503) during
`generate_text` is surfaced as an `InternalError` protocol error, not as an
ordinary MCP text response. -/
theorem c9_counterexample :
    handleToolPt2 "" (.response (failResponse 503 "Service Unavailable" ""))
        "generate_text" [("prompt", .str "hi")]
      = ⟨1, .protocolError .internalError
          "工具执行失败 / Tool execution failed: Gemini API error: 503 Service Unavailable"⟩ := by
  decide

/-- C9 (amended): in the main `src/server.js` variant, every provider
failure of a tool call — `generate_text`, `translate_text` or
`summarize_text`, whatever the environment that produced the rejection — is
caught by the handler's inner catch and answered with an ordinary text reply
built by that tool's error-message function (degraded-availability text for
503/429, a failure text otherwise).  The `part_002` and simplified variants
have no inner catch: every rejecting provider outcome — any HTTP failure,
network error or format error (`hpt2`, `hv2`), and in `part_002` also the
unguarded-access `TypeError` (`hty`) — is surfaced as an `InternalError`
protocol error response instead of a text reply; the caller still receives a
response and the process does not crash. -/
theorem c9_provider_failure_reply (env : Nat → FetchOutcome) (f g fty : FetchOutcome)
    (p q m mp ms tyMsg : String)
    (hmain : (callGeminiV1 env 3).result = .err m)
    (hpt2 : callGeminiPt2 f = .err mp)
    (hv2 : callGeminiV2 g = .err ms)
    (hty : callGeminiPt2 fty = .typeErr) :
    (handleToolV1 env "generate_text" [("prompt", .str p)]
      = ⟨(callGeminiV1 env 3).fetches, .reply (genTextErrorMessage m)⟩
    ∧ handleToolV1 env "translate_text" [("text", .str p), ("target_language", .str q)]
      = ⟨(callGeminiV1 env 3).fetches, .reply (translateErrorMessage m)⟩
    ∧ handleToolV1 env "summarize_text" [("text", .str p)]
      = ⟨(callGeminiV1 env 3).fetches, .reply (summarizeErrorMessage m)⟩)
    ∧ (handleToolPt2 tyMsg f "generate_text" [("prompt", .str p)]
      = ⟨1, .protocolError .internalError ("工具执行失败 / Tool execution failed: " ++ mp)⟩
    ∧ handleToolPt2 tyMsg f "translate_text" [("text", .str p), ("target_language", .str q)]
      = ⟨1, .protocolError .internalError ("工具执行失败 / Tool execution failed: " ++ mp)⟩
    ∧ handleToolPt2 tyMsg f "summarize_text" [("text", .str p)]
      = ⟨1, .protocolError .internalError ("工具执行失败 / Tool execution failed: " ++ mp)⟩)
    ∧ (handleToolV2 g "generate_text" [("prompt", .str p)]
      = ⟨1, .protocolError .internalError ("工具执行失败: " ++ ms)⟩
    ∧ handleToolV2 g "translate_text" [("text", .str p), ("target_language", .str q)]
      = ⟨1, .protocolError .internalError ("工具执行失败: " ++ ms)⟩
    ∧ handleToolV2 g "summarize_text" [("text", .str p)]
      = ⟨1, .protocolError .internalError ("工具执行失败: " ++ ms)⟩)
    ∧ (handleToolPt2 tyMsg fty "generate_text" [("prompt", .str p)]
      = ⟨1, .protocolError .internalError ("工具执行失败 / Tool execution failed: " ++ tyMsg)⟩
    ∧ handleToolPt2 tyMsg fty "translate_text" [("text", .str p), ("target_language", .str q)]
      = ⟨1, .protocolError .internalError ("工具执行失败 / Tool execution failed: " ++ tyMsg)⟩
    ∧ handleToolPt2 tyMsg fty "summarize_text" [("text", .str p)]
      = ⟨1, .protocolError .internalError ("工具执行失败 / Tool execution failed: " ++ tyMsg)⟩) := by
  refine ⟨⟨?_, ?_, ?_⟩, ⟨?_, ?_, ?_⟩, ⟨?_, ?_, ?_⟩, ⟨?_, ?_, ?_⟩⟩
  · have hs : handleToolV1 env "generate_text" [("prompt", .str p)]
        = (match (callGeminiV1 env 3).result with
           | .ret v => (⟨(callGeminiV1 env 3).fetches,
               .reply ("生成的文本 / Generated text:\n" ++ jsDisplay v)⟩ : ToolTrace)
           | .err m0 => ⟨(callGeminiV1 env 3).fetches,
               .reply (genTextErrorMessage m0)⟩) := rfl
    rw [hs, hmain]
  · have hs : handleToolV1 env "translate_text" [("text", .str p), ("target_language", .str q)]
        = (match (callGeminiV1 env 3).result with
           | .ret v => (⟨(callGeminiV1 env 3).fetches,
               .reply ("翻译结果 / Translation result:\n" ++ jsDisplay v)⟩ : ToolTrace)
           | .err m0 => ⟨(callGeminiV1 env 3).fetches,
               .reply (translateErrorMessage m0)⟩) := rfl
    rw [hs, hmain]
  · have hs : handleToolV1 env "summarize_text" [("text", .str p)]
        = (match (callGeminiV1 env 3).result with
           | .ret v => (⟨(callGeminiV1 env 3).fetches,
               .reply ("总结结果 / Summary result:\n" ++ jsDisplay v)⟩ : ToolTrace)
           | .err m0 => ⟨(callGeminiV1 env 3).fetches,
               .reply (summarizeErrorMessage m0)⟩) := rfl
    rw [hs, hmain]
  · have hs : handleToolPt2 tyMsg f "generate_text" [("prompt", .str p)]
        = (match callGeminiPt2 f with
           | .ret v => (⟨1, .reply ("生成的文本 / Generated text:\n" ++ jsDisplay v)⟩ : ToolTrace)
           | .err m0 =>
             ⟨1, .protocolError .internalError ("工具执行失败 / Tool execution failed: " ++ m0)⟩
           | .typeErr =>
             ⟨1, .protocolError .internalError
               ("工具执行失败 / Tool execution failed: " ++ tyMsg)⟩) := rfl
    rw [hs, hpt2]
  · have hs : handleToolPt2 tyMsg f "translate_text" [("text", .str p), ("target_language", .str q)]
        = (match callGeminiPt2 f with
           | .ret v => (⟨1, .reply ("翻译结果 / Translation result:\n" ++ jsDisplay v)⟩ : ToolTrace)
           | .err m0 =>
             ⟨1, .protocolError .internalError ("工具执行失败 / Tool execution failed: " ++ m0)⟩
           | .typeErr =>
             ⟨1, .protocolError .internalError
               ("工具执行失败 / Tool execution failed: " ++ tyMsg)⟩) := rfl
    rw [hs, hpt2]
  · have hs : handleToolPt2 tyMsg f "summarize_text" [("text", .str p)]
        = (match callGeminiPt2 f with
           | .ret v => (⟨1, .reply ("总结结果 / Summary result:\n" ++ jsDisplay v)⟩ : ToolTrace)
           | .err m0 =>
             ⟨1, .protocolError .internalError ("工具执行失败 / Tool execution failed: " ++ m0)⟩
           | .typeErr =>
             ⟨1, .protocolError .internalError
               ("工具执行失败 / Tool execution failed: " ++ tyMsg)⟩) := rfl
    rw [hs, hpt2]
  · have hs : handleToolV2 g "generate_text" [("prompt", .str p)]
        = (match callGeminiV2 g with
           | .ret v => (⟨1, .reply (jsDisplay v)⟩ : ToolTrace)
           | .err m0 => ⟨1, .protocolError .internalError ("工具执行失败: " ++ m0)⟩) := rfl
    rw [hs, hv2]
  · have hs : handleToolV2 g "translate_text" [("text", .str p), ("target_language", .str q)]
        = (match callGeminiV2 g with
           | .ret v => (⟨1, .reply (jsDisplay v)⟩ : ToolTrace)
           | .err m0 => ⟨1, .protocolError .internalError ("工具执行失败: " ++ m0)⟩) := rfl
    rw [hs, hv2]
  · have hs : handleToolV2 g "summarize_text" [("text", .str p)]
        = (match callGeminiV2 g with
           | .ret v => (⟨1, .reply (jsDisplay v)⟩ : ToolTrace)
           | .err m0 => ⟨1, .protocolError .internalError ("工具执行失败: " ++ m0)⟩) := rfl
    rw [hs, hv2]
  · have hs : handleToolPt2 tyMsg fty "generate_text" [("prompt", .str p)]
        = (match callGeminiPt2 fty with
           | .ret v => (⟨1, .reply ("生成的文本 / Generated text:\n" ++ jsDisplay v)⟩ : ToolTrace)
           | .err m0 =>
             ⟨1, .protocolError .internalError ("工具执行失败 / Tool execution failed: " ++ m0)⟩
           | .typeErr =>
             ⟨1, .protocolError .internalError
               ("工具执行失败 / Tool execution failed: " ++ tyMsg)⟩) := rfl
    rw [hs, hty]
  · have hs : handleToolPt2 tyMsg fty "translate_text"
          [("text", .str p), ("target_language", .str q)]
        = (match callGeminiPt2 fty with
           | .ret v => (⟨1, .reply ("翻译结果 / Translation result:\n" ++ jsDisplay v)⟩ : ToolTrace)
           | .err m0 =>
             ⟨1, .protocolError .internalError ("工具执行失败 / Tool execution failed: " ++ m0)⟩
           | .typeErr =>
             ⟨1, .protocolError .internalError
               ("工具执行失败 / Tool execution failed: " ++ tyMsg)⟩) := rfl
    rw [hs, hty]
  · have hs : handleToolPt2 tyMsg fty "summarize_text" [("text", .str p)]
        = (match callGeminiPt2 fty with
           | .ret v => (⟨1, .reply ("总结结果 / Summary result:\n" ++ jsDisplay v)⟩ : ToolTrace)
           | .err m0 =>
             ⟨1, .protocolError .internalError ("工具执行失败 / Tool execution failed: " ++ m0)⟩
           | .typeErr =>
             ⟨1, .protocolError .internalError
               ("工具执行失败 / Tool execution failed: " ++ tyMsg)⟩) := rfl
    rw [hs, hty]

/-- Witness for `c9_provider_failure_reply`: the main-variant environment
fails fatally with `400 Bad Request`; the `part_002` and simplified gateways
reject on a `503 Service Unavailable` response; the `TypeError` case arises
from a 2xx response whose `candidates[0].content` lacks `parts`. -/
theorem c9_provider_failure_reply_witness :
    (handleToolV1 (fun _ => .response (failResponse 400 "Bad Request" ""))
        "generate_text" [("prompt", .str "hi")]
      = ⟨(callGeminiV1 (fun _ => .response (failResponse 400 "Bad Request" "")) 3).fetches,
          .reply (genTextErrorMessage "Gemini API error: 400 Bad Request")⟩
    ∧ handleToolV1 (fun _ => .response (failResponse 400 "Bad Request" ""))
        "translate_text" [("text", .str "hi"), ("target_language", .str "French")]
      = ⟨(callGeminiV1 (fun _ => .response (failResponse 400 "Bad Request" "")) 3).fetches,
          .reply (translateErrorMessage "Gemini API error: 400 Bad Request")⟩
    ∧ handleToolV1 (fun _ => .response (failResponse 400 "Bad Request" ""))
        "summarize_text" [("text", .str "hi")]
      = ⟨(callGeminiV1 (fun _ => .response (failResponse 400 "Bad Request" "")) 3).fetches,
          .reply (summarizeErrorMessage "Gemini API error: 400 Bad Request")⟩)
    ∧ (handleToolPt2 "" (.response (failResponse 503 "Service Unavailable" ""))
        "generate_text" [("prompt", .str "hi")]
      = ⟨1, .protocolError .internalError ("工具执行失败 / Tool execution failed: "
          ++ "Gemini API error: 503 Service Unavailable")⟩
    ∧ handleToolPt2 "" (.response (failResponse 503 "Service Unavailable" ""))
        "translate_text" [("text", .str "hi"), ("target_language", .str "French")]
      = ⟨1, .protocolError .internalError ("工具执行失败 / Tool execution failed: "
          ++ "Gemini API error: 503 Service Unavailable")⟩
    ∧ handleToolPt2 "" (.response (failResponse 503 "Service Unavailable" ""))
        "summarize_text" [("text", .str "hi")]
      = ⟨1, .protocolError .internalError ("工具执行失败 / Tool execution failed: "
          ++ "Gemini API error: 503 Service Unavailable")⟩)
    ∧ (handleToolV2 (.response (failResponse 503 "Service Unavailable" ""))
        "generate_text" [("prompt", .str "hi")]
      = ⟨1, .protocolError .internalError ("工具执行失败: "
          ++ "Gemini API错误: 503 Service Unavailable")⟩
    ∧ handleToolV2 (.response (failResponse 503 "Service Unavailable" ""))
        "translate_text" [("text", .str "hi"), ("target_language", .str "French")]
      = ⟨1, .protocolError .internalError ("工具执行失败: "
          ++ "Gemini API错误: 503 Service Unavailable")⟩
    ∧ handleToolV2 (.response (failResponse 503 "Service Unavailable" ""))
        "summarize_text" [("text", .str "hi")]
      = ⟨1, .protocolError .internalError ("工具执行失败: "
          ++ "Gemini API错误: 503 Service Unavailable")⟩)
    ∧ (handleToolPt2 "" (.response (okResponse ⟨some [⟨some ⟨none⟩⟩]⟩ "x"))
        "generate_text" [("prompt", .str "hi")]
      = ⟨1, .protocolError .internalError ("工具执行失败 / Tool execution failed: " ++ "")⟩
    ∧ handleToolPt2 "" (.response (okResponse ⟨some [⟨some ⟨none⟩⟩]⟩ "x"))
        "translate_text" [("text", .str "hi"), ("target_language", .str "French")]
      = ⟨1, .protocolError .internalError ("工具执行失败 / Tool execution failed: " ++ "")⟩
    ∧ handleToolPt2 "" (.response (okResponse ⟨some [⟨some ⟨none⟩⟩]⟩ "x"))
        "summarize_text" [("text", .str "hi")]
      = ⟨1, .protocolError .internalError ("工具执行失败 / Tool execution failed: " ++ "")⟩) :=
  c9_provider_failure_reply (fun _ => .response (failResponse 400 "Bad Request" ""))
    (.response (failResponse 503 "Service Unavailable" ""))
    (.response (failResponse 503 "Service Unavailable" ""))
    (.response (okResponse ⟨some [⟨some ⟨none⟩⟩]⟩ "x"))
    "hi" "French" "Gemini API error: 400 Bad Request"
    "Gemini API error: 503 Service Unavailable"
    "Gemini API错误: 503 Service Unavailable" ""
    (by decide) (by decide) (by decide) (by decide)

/-- C10: the `part_002` success-path guard is not total: for a 2xx response
whose `candidates[0].content` exists but whose `parts` is missing (and
likewise for empty `parts`), the extraction performs an unguarded access and
raises a `TypeError` rather than the guarded
`'Unexpected response format'` error. -/
theorem c10_pt2_unguarded :
    extractPt2 ⟨some [⟨some ⟨none⟩⟩]⟩ = .typeThrow
    ∧ extractPt2 ⟨some [⟨some ⟨some []⟩⟩]⟩ = .typeThrow
    ∧ ExtractOutcome.typeThrow ≠ ExtractOutcome.formatThrow := by
  decide

end MCPTest
